import Mathlib

/-!
# Verification of the fmriprep field-map wiring code

Shallow embedding of `src/fmriprep/main/fmaps.py` and
`src/fmriprep/workflows/util.py`.  Pure Python logic (option handling,
plugin-settings dictionary construction, subject-list derivation, workflow
graph declaration) is translated into executable Lean definitions; the
external nipype engine, the filesystem and the host CPU count are modelled
as explicit environment inputs.
-/

set_option autoImplicit false

namespace FmriPrep

/-- A directory entry directly under the BIDS root, as the filesystem
presents it to `glob.glob`: a basename together with whether the entry is a
directory.  `glob` itself does not distinguish files from directories. -/
structure Entry where
  name : String
  isDir : Bool
deriving Repr, DecidableEq

/-- The parsed command-line options of `main()` in `fmaps.py`.
`nthreads`, `mem_mb` and `ants_nthreads` are Python ints (argparse
`type=int`), `participant_label` is `None` or a list (`nargs=+`),
`use_plugin` is `None` or a path. -/
structure Opts where
  bids_dir : String
  output_dir : String
  participant_label : Option (List String)
  nthreads : Int
  mem_mb : Int
  write_graph : Bool
  use_plugin : Option String
  work_dir : String
  ants_nthreads : Int
deriving Repr, DecidableEq

/-- The `settings` dictionary built at the top of `create_workflow`. -/
structure Settings where
  bids_root : String
  write_graph : Bool
  nthreads : Int
  mem_mb : Int
  ants_nthreads : Int
  output_dir : String
  work_dir : String
deriving Repr, DecidableEq

/-- The `plugin_args` sub-dictionary of the nipype plugin settings.
`n_procs` and `memory_gb` are present only when the corresponding
assignment ran; `memory_gb` is a Python float, modelled as an exact
rational (division of an int by 1024 is exact in binary floating point
for all realistic magnitudes). -/
structure PluginArgs where
  n_procs : Option Int
  memory_gb : Option ℚ
deriving Repr, DecidableEq

/-- The `plugin_settings` dictionary handed to `preproc_wf.run(**...)`.
A YAML plugin file loaded by `--use-plugin` is modelled as already parsed
into this shape. -/
structure PluginSettings where
  plugin : String
  plugin_args : Option PluginArgs
deriving Repr, DecidableEq

/-- Outcome of the delegated `preproc_wf.run` call: it returns normally,
raises `RuntimeError` (the one exception class the `except` clause
catches), or raises some other exception. -/
inductive RunOutcome
  | success
  | runtimeError
  | otherError
deriving Repr, DecidableEq

/-- `os.path.join` of a directory and a relative component. -/
def pjoin (a b : String) : String := a ++ "/" ++ b

/-- String comparison of a leading fragment, written over the character
lists so that the kernel can evaluate it (the built-in `String.startsWith`
is defined by well-founded recursion). -/
def strStarts (pat s : String) : Bool := pat.data.isPrefixOf s.data

/-- The Python string slice `[n:]`, over the character list. -/
def strDrop (s : String) (n : Nat) : String := ⟨s.data.drop n⟩

/-- `os.path.abspath`: absolute paths are kept, relative ones are joined
onto the current working directory.  Collapsing of dot segments is not
modelled; no claim depends on it. -/
def abspath (cwd p : String) : String :=
  if strStarts "/" p then p else pjoin cwd p

/-- Modelled from the spec: `make_folder` lives in `fmriprep.utils`, which
is not among this repository's source files.  The spec records only that
each directory is "created idempotently": creation adds the path to the
filesystem when missing and is a no-op when the directory already
exists. -/
def make_folder (fs : List String) (p : String) : List String :=
  if p ∈ fs then fs else fs ++ [p]

/-- The four `make_folder` calls of `create_workflow`, in source order:
output directory, working directory, `<output_dir>/derivatives`,
`<output_dir>/log`. -/
def createDirs (settings : Settings) (fs : List String) : List String :=
  make_folder
    (make_folder
      (make_folder (make_folder fs settings.output_dir) settings.work_dir)
      (pjoin settings.output_dir "derivatives"))
    (pjoin settings.output_dir "log")

/-- The subject-list derivation of `create_workflow` when no participant
labels were given: `glob.glob` over the pattern `sub-*` under the BIDS
root keeps every entry (file or directory alike) whose basename starts
with `sub-`, and the slice `[4:]` of `op.basename` strips the first four
characters of the basename.  Entries are given as basenames; glob order
is the list order. -/
def derivedSubjectList (entries : List Entry) : List String :=
  (entries.filter (fun e => strStarts "sub-" e.name)).map
    (fun e => strDrop e.name 4)

/-- Following the claim, taken literally, rather than the source: the
same derivation restricted to entries that are directories. -/
def derivedSubjectListSpec (entries : List Entry) : List String :=
  (entries.filter (fun e => e.isDir && strStarts "sub-" e.name)).map
    (fun e => strDrop e.name 4)

/-- Modelled from the spec: `collect_bids_data` lives in
`fmriprep.utils.misc`, outside the given sources.  Only its identity
matters to the wiring code: it packages the dataset root and one subject
identifier. -/
structure SubjectData where
  bids_root : String
  subject_id : String
deriving Repr, DecidableEq

def collect_bids_data (bids_root subject_id : String) : SubjectData :=
  ⟨bids_root, subject_id⟩

/-- The interface wrapped by a workflow node.  Constructors mirror the
interface classes instantiated in the two source files; the two field-map
sub-workflows built by `fmriprep.workflows.fieldmap` (outside the given
sources) appear as leaf constructors. -/
inductive Interface
  | identityInterface (fields : List String)
  | bidsDataGrabber (subject_data : SubjectData)
  | readSidecarJSON
  | intraModalMerge
  | betNode (frac : ℚ) (mask : Bool)
  | n4BiasFieldCorrection (dimension : Int) (copy_header : Bool)
  | unifizeNode
  | automaskNode (dilate : Int)
  | binaryMaths (operation : String)
  | applyMaskNode
  | simpleShowMaskRPT
  | fmapEstimatorWf
  | sdcUnwarpWf
deriving Repr, DecidableEq

/-- Whether a node's interface performs image processing: it transforms
image data, as opposed to identity plumbing, dataset/metadata reading, a
report renderer, or a modelled sub-workflow. -/
def Interface.isImageProcessing : Interface → Bool
  | .betNode _ _ => true
  | .n4BiasFieldCorrection _ _ => true
  | .unifizeNode => true
  | .automaskNode _ => true
  | .binaryMaths _ => true
  | .applyMaskNode => true
  | .intraModalMerge => true
  | _ => false

/-- The fragment of the nipype workflow/node configuration the wiring code
touches: `config['execution']['crashdump_dir']`. -/
structure WfConfig where
  crashdump_dir : Option String
deriving Repr, DecidableEq

/-- A nipype `pe.Node` as declared by this repository: a name, the wrapped
interface, and the node-level configuration assigned by
`fmap_enumerator`. -/
structure Node where
  name : String
  iface : Interface
  config : WfConfig
deriving Repr, DecidableEq

/-- One entry of a `workflow.connect` list: source node/field, destination
node/field, and whether the source field is routed through the `_first`
helper (the `((field, _first), ...)` form). -/
structure Edge where
  src : String
  srcField : String
  viaFirst : Bool
  dst : String
  dstField : String
deriving Repr, DecidableEq

/-- A nipype `pe.Workflow` whose members are plain nodes: name, workflow
configuration, declared nodes and connect edges. -/
structure SubWf where
  name : String
  config : WfConfig
  nodes : List Node
  edges : List Edge
deriving Repr, DecidableEq

/-- The enclosing workflow returned by `fmap_enumerator`: its only members
are the per-subject sub-workflows added by `add_nodes`. -/
structure EnumWf where
  name : String
  subWfs : List SubWf
deriving Repr, DecidableEq

/-- The configuration of a freshly declared node, before `fmap_enumerator`
overwrites it. -/
def defaultWfConfig : WfConfig := ⟨none⟩

/-- `sbref_correct(subject_data, settings)`: declares the four plain nodes
and the two field-map sub-workflows (modelled as leaf nodes) and lists the
`connect` edges verbatim from the source. -/
def sbref_correct (subject_data : SubjectData) : SubWf :=
  { name := "sbref_correct"
  , config := defaultWfConfig
  , nodes :=
      [ ⟨"BIDSDatasource", .bidsDataGrabber subject_data, defaultWfConfig⟩
      , ⟨"metadata", .readSidecarJSON, defaultWfConfig⟩
      , ⟨"MergeSBRefs", .intraModalMerge, defaultWfConfig⟩
      , ⟨"Mask", .betNode (2/5) true, defaultWfConfig⟩
      , ⟨"fmap_estimator", .fmapEstimatorWf, defaultWfConfig⟩
      , ⟨"sdc_unwarp", .sdcUnwarpWf, defaultWfConfig⟩ ]
  , edges :=
      [ ⟨"BIDSDatasource", "sbref", true, "metadata", "in_file"⟩
      , ⟨"BIDSDatasource", "sbref", false, "MergeSBRefs", "in_files"⟩
      , ⟨"fmap_estimator", "outputnode.fmap", true, "sdc_unwarp", "inputnode.fmap"⟩
      , ⟨"fmap_estimator", "outputnode.fmap_ref", true, "sdc_unwarp", "inputnode.fmap_ref"⟩
      , ⟨"fmap_estimator", "outputnode.fmap_mask", true, "sdc_unwarp", "inputnode.fmap_mask"⟩
      , ⟨"metadata", "out_dict", false, "sdc_unwarp", "inputnode.in_meta"⟩
      , ⟨"BIDSDatasource", "sbref", false, "sdc_unwarp", "inputnode.in_files"⟩
      , ⟨"MergeSBRefs", "out_file", false, "sdc_unwarp", "inputnode.in_reference"⟩
      , ⟨"MergeSBRefs", "out_file", false, "Mask", "in_file"⟩
      , ⟨"Mask", "mask_file", false, "sdc_unwarp", "inputnode.in_mask"⟩ ] }

/-- `init_enhance_and_skullstrip_epi_wf(name)` from
`src/fmriprep/workflows/util.py`: the nine declared nodes (two identity
endpoints, six image-processing interfaces and one mask reportlet) and
the fourteen connect edges, verbatim from the source.  In Python the
`name` parameter defaults to `enhance_and_skullstrip_epi_wf`; here it is
passed explicitly. -/
def init_enhance_and_skullstrip_epi_wf (name : String) : SubWf :=
  { name := name
  , config := defaultWfConfig
  , nodes :=
      [ ⟨"inputnode", .identityInterface ["in_file"], defaultWfConfig⟩
      , ⟨"outputnode", .identityInterface
          ["mask_file", "skull_stripped_file", "bias_corrected_file",
           "out_report"], defaultWfConfig⟩
      , ⟨"n4_correct", .n4BiasFieldCorrection 3 true, defaultWfConfig⟩
      , ⟨"skullstrip_first_pass", .betNode (1/5) true, defaultWfConfig⟩
      , ⟨"unifize", .unifizeNode, defaultWfConfig⟩
      , ⟨"skullstrip_second_pass", .automaskNode 1, defaultWfConfig⟩
      , ⟨"combine_masks", .binaryMaths "mul", defaultWfConfig⟩
      , ⟨"apply_mask", .applyMaskNode, defaultWfConfig⟩
      , ⟨"mask_reportlet", .simpleShowMaskRPT, defaultWfConfig⟩ ]
  , edges :=
      [ ⟨"inputnode", "in_file", false, "n4_correct", "input_image"⟩
      , ⟨"n4_correct", "output_image", false, "skullstrip_first_pass", "in_file"⟩
      , ⟨"skullstrip_first_pass", "out_file", false, "unifize", "in_file"⟩
      , ⟨"unifize", "out_file", false, "skullstrip_second_pass", "in_file"⟩
      , ⟨"skullstrip_first_pass", "mask_file", false, "combine_masks", "in_file"⟩
      , ⟨"skullstrip_second_pass", "out_file", false, "combine_masks", "operand_file"⟩
      , ⟨"unifize", "out_file", false, "apply_mask", "in_file"⟩
      , ⟨"combine_masks", "out_file", false, "apply_mask", "mask_file"⟩
      , ⟨"n4_correct", "output_image", false, "mask_reportlet", "background_file"⟩
      , ⟨"combine_masks", "out_file", false, "mask_reportlet", "mask_file"⟩
      , ⟨"combine_masks", "out_file", false, "outputnode", "mask_file"⟩
      , ⟨"mask_reportlet", "out_report", false, "outputnode", "out_report"⟩
      , ⟨"apply_mask", "out_file", false, "outputnode", "skull_stripped_file"⟩
      , ⟨"n4_correct", "output_image", false, "outputnode", "bias_corrected_file"⟩ ] }

/-- The crash-dump directory `fmap_enumerator` assigns for one subject:
`os.path.join` of the output directory, `log`, the subject identifier and
the timestamp `cur_time`. -/
def crashDir (output_dir subject_id cur_time : String) : String :=
  pjoin (pjoin (pjoin output_dir "log") subject_id) cur_time

/-- The body of the `for subject_id in subject_list` loop of
`fmap_enumerator`, for the iteration at index `i`: build the subject's
`sbref_correct` workflow, overwrite its crash-dump directory with the
per-subject timestamped path (`ts i` models the `strftime` call of that
iteration), and give every node a copy of the resulting workflow
configuration. -/
def subjectWf (settings : Settings) (ts : Nat → String)
    (subject_id : String) (i : Nat) : SubWf :=
  let base := sbref_correct (collect_bids_data settings.bids_root subject_id)
  let cfg : WfConfig :=
    ⟨some (crashDir settings.output_dir subject_id (ts i))⟩
  { base with
      config := cfg
      nodes := base.nodes.map (fun n => { n with config := cfg }) }

/-- The loop of `fmap_enumerator`, carrying the iteration index used to
model successive `strftime` calls. -/
def enumLoop (settings : Settings) (ts : Nat → String) :
    List String → Nat → List SubWf
  | [], _ => []
  | s :: rest, i => subjectWf settings ts s i :: enumLoop settings ts rest (i + 1)

/-- `fmap_enumerator(subject_list, settings)`. -/
def fmap_enumerator (subject_list : List String) (settings : Settings)
    (ts : Nat → String) : EnumWf :=
  { name := "workflow_enumerator"
  , subWfs := enumLoop settings ts subject_list 0 }

/-- The environment `create_workflow` runs in: current directory, host CPU
count, the entries under the BIDS root, the parsed content of any YAML
plugin file by path, the `strftime` timestamps of successive enumerator
iterations, the initial filesystem, and what the delegated
`preproc_wf.run` call does.  The loaded YAML plugin settings and the run
outcome are environment data because they come from outside the
repository (a user file and the external engine). -/
structure Env where
  cwd : String
  cpuCount : Int
  bidsEntries : List Entry
  pluginFile : String → PluginSettings
  timestamps : Nat → String
  fs0 : List String
  runOutcome : RunOutcome

/-- Everything observable about one `create_workflow` invocation: the
filesystem after directory creation, the plugin settings passed to `run`,
the final (mutated) settings dictionary, the subject list, the built
workflow, and the exit status (`none` when an uncaught exception
propagates instead of reaching `sys.exit`). -/
structure CWResult where
  fs : List String
  pluginSettings : PluginSettings
  settings : Settings
  subjectList : List String
  workflow : EnumWf
  exit : Option Int

/-- The `settings` dictionary as first assembled from the parsed options,
lines 74 to 82 of `fmaps.py`. -/
def initialSettings (opts : Opts) (cwd : String) : Settings :=
  { bids_root := abspath cwd opts.bids_dir
  , write_graph := opts.write_graph
  , nthreads := opts.nthreads
  , mem_mb := opts.mem_mb
  , ants_nthreads := opts.ants_nthreads
  , output_dir := abspath cwd opts.output_dir
  , work_dir := abspath cwd opts.work_dir }

/-- Lines 100 to 115 of `fmaps.py`: the plugin-settings dictionary
together with the settings dictionary after the in-place mutation of
`nthreads`.  With `--use-plugin` the parsed YAML file is taken as is and
the settings are untouched; otherwise a zero thread count is replaced by
the CPU count and the MultiProc/Linear choice is made. -/
def pluginStep (opts : Opts) (pluginFile : String → PluginSettings)
    (cpuCount : Int) (settings0 : Settings) : PluginSettings × Settings :=
  match opts.use_plugin with
  | some path => (pluginFile path, settings0)
  | none =>
    let settings1 :=
      if settings0.nthreads = 0 then
        { settings0 with nthreads := cpuCount }
      else settings0
    if settings1.nthreads > 1 then
      ({ plugin := "MultiProc"
       , plugin_args := some
           { n_procs := some settings1.nthreads
           , memory_gb :=
               if settings1.mem_mb ≠ 0 then
                 some ((settings1.mem_mb : ℚ) / 1024)
               else none } }, settings1)
    else ({ plugin := "Linear", plugin_args := none }, settings1)

/-- Lines 117 to 118 of `fmaps.py`: a zero `ants_nthreads` is replaced by
the CPU count. -/
def antsStep (cpuCount : Int) (s : Settings) : Settings :=
  if s.ants_nthreads = 0 then { s with ants_nthreads := cpuCount } else s

/-- Lines 120 to 126 of `fmaps.py`: the supplied participant labels when
present and non-empty, otherwise the glob-derived list. -/
def chooseSubjectList (labels : Option (List String))
    (entries : List Entry) : List String :=
  match labels with
  | none => derivedSubjectList entries
  | some [] => derivedSubjectList entries
  | some l => l

/-- Lines 132 to 143 of `fmaps.py`: `errno` starts at 0, the `except
RuntimeError` clause sets it to 1, and `sys.exit(errno)` reports it; any
other exception propagates and never reaches `sys.exit`. -/
def exitOf : RunOutcome → Option Int
  | .success => some 0
  | .runtimeError => some 1
  | .otherError => none

/-- `create_workflow(opts)` from `fmaps.py`, as a function of the explicit
environment. -/
def create_workflow (opts : Opts) (env : Env) : CWResult :=
  let settings0 := initialSettings opts env.cwd
  let fs1 := createDirs settings0 env.fs0
  let pluginPair := pluginStep opts env.pluginFile env.cpuCount settings0
  let settings2 := antsStep env.cpuCount pluginPair.2
  let subject_list := chooseSubjectList opts.participant_label env.bidsEntries
  let wf := fmap_enumerator subject_list settings2 env.timestamps
  { fs := fs1
  , pluginSettings := pluginPair.1
  , settings := settings2
  , subjectList := subject_list
  , workflow := wf
  , exit := exitOf env.runOutcome }

/-! ## Concrete inputs used by witnesses -/

/-- A concrete option record: explicit participant labels, no plugin
file. -/
def optsW : Opts :=
  { bids_dir := "/data"
  , output_dir := "/out"
  , participant_label := some ["01"]
  , nthreads := 1
  , mem_mb := 0
  , write_graph := false
  , use_plugin := none
  , work_dir := "/work"
  , ants_nthreads := 1 }

/-- A concrete environment, parameterised by the run outcome. -/
def envW (o : RunOutcome) : Env :=
  { cwd := "/home"
  , cpuCount := 8
  , bidsEntries := [⟨"sub-01", true⟩, ⟨"sub-02", true⟩]
  , pluginFile := fun _ => ⟨"Linear", none⟩
  , timestamps := fun _ => "20260101-000000"
  , fs0 := []
  , runOutcome := o }

/-- Options leaving the participant labels unset. -/
def optsNoLabel : Opts := { optsW with participant_label := none }

/-- An environment whose BIDS root holds a plain file whose name matches
the `sub-*` pattern. -/
def envFile : Env := { envW .success with bidsEntries := [⟨"sub-01", false⟩] }

/-- Options leaving nthreads, mem_mb and ants_nthreads at their argparse
defaults of zero. -/
def optsZero : Opts := { optsW with nthreads := 0, mem_mb := 0, ants_nthreads := 0 }

/-- A concrete settings record for the enumerator witnesses. -/
def settingsW : Settings := initialSettings optsW "/home"

/-- A concrete timestamp source: every iteration observes the same
second. -/
def tsW : Nat → String := fun _ => "20260101-000000"

/-- Two option records naming the same plugin file but with different
thread and memory options. -/
def optsPluginA : Opts :=
  { optsW with use_plugin := some "/cfg/plugin.yml", nthreads := 2, mem_mb := 1000 }

def optsPluginB : Opts :=
  { optsW with use_plugin := some "/cfg/plugin.yml", nthreads := 99, mem_mb := 0 }

/-! ## Helper lemmas about the steps of create_workflow -/

theorem create_workflow_settings_eq (opts : Opts) (env : Env) :
    (create_workflow opts env).settings =
      antsStep env.cpuCount
        (pluginStep opts env.pluginFile env.cpuCount
          (initialSettings opts env.cwd)).2 := rfl

theorem pluginStep_snd_mem_mb (opts : Opts) (pf : String → PluginSettings)
    (c : Int) (s0 : Settings) :
    (pluginStep opts pf c s0).2.mem_mb = s0.mem_mb := by
  unfold pluginStep
  cases opts.use_plugin with
  | some p => rfl
  | none => by_cases h0 : s0.nthreads = 0 <;> simp [h0] <;> split <;> rfl

theorem pluginStep_snd_ants (opts : Opts) (pf : String → PluginSettings)
    (c : Int) (s0 : Settings) :
    (pluginStep opts pf c s0).2.ants_nthreads = s0.ants_nthreads := by
  unfold pluginStep
  cases opts.use_plugin with
  | some p => rfl
  | none => by_cases h0 : s0.nthreads = 0 <;> simp [h0] <;> split <;> rfl

theorem pluginStep_snd_nthreads_zero (opts : Opts)
    (pf : String → PluginSettings) (c : Int) (s0 : Settings)
    (h : opts.use_plugin = none) (h0 : s0.nthreads = 0) :
    (pluginStep opts pf c s0).2.nthreads = c := by
  unfold pluginStep
  rw [h]
  simp only [h0, if_pos]
  split <;> rfl

theorem antsStep_mem_mb (c : Int) (s : Settings) :
    (antsStep c s).mem_mb = s.mem_mb := by
  unfold antsStep; split <;> rfl

theorem antsStep_nthreads (c : Int) (s : Settings) :
    (antsStep c s).nthreads = s.nthreads := by
  unfold antsStep; split <;> rfl

theorem antsStep_ants_zero (c : Int) (s : Settings)
    (h : s.ants_nthreads = 0) : (antsStep c s).ants_nthreads = c := by
  simp [antsStep, h]

/-! ## C1: exit status -/

/-- C1: for every invocation of `create_workflow`, the process exit status
is `0` when the delegated `preproc_wf.run` call completes without raising,
and `1` when it raises a runtime failure (`RuntimeError`). -/
theorem exit_status_reflects_run_outcome (opts : Opts) (env : Env) :
    (env.runOutcome = RunOutcome.success →
        (create_workflow opts env).exit = some 0) ∧
    (env.runOutcome = RunOutcome.runtimeError →
        (create_workflow opts env).exit = some 1) := by
  constructor <;> intro h <;> simp [create_workflow, exitOf, h]

/-- Witness for C1 at concrete inputs. -/
theorem exit_status_reflects_run_outcome_witness :
    (create_workflow optsW (envW .success)).exit = some 0 ∧
    (create_workflow optsW (envW .runtimeError)).exit = some 1 :=
  ⟨(exit_status_reflects_run_outcome optsW (envW .success)).1 rfl,
   (exit_status_reflects_run_outcome optsW (envW .runtimeError)).2 rfl⟩

/-! ## C2: subject-list derivation -/

/-- C2 counterexample: with no participant labels and a BIDS root holding
a plain file named `sub-01`, the subject list the code derives differs
from the claimed directories-only derivation, because `glob.glob` keeps
matching files as well as directories. -/
theorem subject_list_globs_files_counterexample :
    (create_workflow optsNoLabel envFile).subjectList ≠
      derivedSubjectListSpec envFile.bidsEntries := by
  decide

/-- C2 amended: when no participant labels were supplied, the subject list
takes every entry (file or directory) under the dataset root whose
basename matches `sub-*` and strips the first four characters of the
basename, in glob order. -/
theorem subject_list_derivation (opts : Opts) (env : Env)
    (h : opts.participant_label = none ∨ opts.participant_label = some []) :
    (create_workflow opts env).subjectList =
      (env.bidsEntries.filter (fun e => strStarts "sub-" e.name)).map
        (fun e => strDrop e.name 4) := by
  rcases h with h | h <;>
    simp [create_workflow, h, chooseSubjectList, derivedSubjectList]

/-- Witness for C2 at concrete inputs. -/
theorem subject_list_derivation_witness :
    (create_workflow optsNoLabel envFile).subjectList =
      (envFile.bidsEntries.filter (fun e => strStarts "sub-" e.name)).map
        (fun e => strDrop e.name 4) :=
  subject_list_derivation optsNoLabel envFile (Or.inl rfl)

/-! ## C3: thread and memory defaults -/

/-- C3 counterexample: with every limit left at zero and no plugin file,
the final `mem_mb` setting does not fall back to the host CPU count (8
here): the code never touches `mem_mb`. -/
theorem mem_mb_no_cpu_fallback_counterexample :
    (create_workflow optsZero (envW .success)).settings.mem_mb ≠
      (envW .success).cpuCount := by
  decide

/-- C3 amended: without a plugin file, `nthreads` falls back to the host
CPU count when passed as 0, and so does `ants_nthreads`; `mem_mb` has no
fallback and keeps the value it was passed (0 merely disables the memory
budget). -/
theorem thread_defaults (opts : Opts) (env : Env)
    (h : opts.use_plugin = none) :
    (opts.nthreads = 0 →
        (create_workflow opts env).settings.nthreads = env.cpuCount) ∧
    (opts.ants_nthreads = 0 →
        (create_workflow opts env).settings.ants_nthreads = env.cpuCount) ∧
    (create_workflow opts env).settings.mem_mb = opts.mem_mb := by
  refine ⟨fun h0 => ?_, fun ha => ?_, ?_⟩
  · rw [create_workflow_settings_eq, antsStep_nthreads,
      pluginStep_snd_nthreads_zero opts env.pluginFile env.cpuCount _ h h0]
  · rw [create_workflow_settings_eq,
      antsStep_ants_zero _ _ (by rw [pluginStep_snd_ants]; exact ha)]
  · rw [create_workflow_settings_eq, antsStep_mem_mb, pluginStep_snd_mem_mb]
    rfl

/-- Witness for C3 at concrete inputs. -/
theorem thread_defaults_witness :
    (create_workflow optsZero (envW .success)).settings.nthreads =
        (envW .success).cpuCount ∧
    (create_workflow optsZero (envW .success)).settings.ants_nthreads =
        (envW .success).cpuCount ∧
    (create_workflow optsZero (envW .success)).settings.mem_mb =
        optsZero.mem_mb :=
  ⟨(thread_defaults optsZero (envW .success) rfl).1 rfl,
   (thread_defaults optsZero (envW .success) rfl).2.1 rfl,
   (thread_defaults optsZero (envW .success) rfl).2.2⟩

/-! ## C4: plugin selection without a plugin file -/

theorem create_workflow_pluginSettings_eq (opts : Opts) (env : Env) :
    (create_workflow opts env).pluginSettings =
      (pluginStep opts env.pluginFile env.cpuCount
        (initialSettings opts env.cwd)).1 := rfl

/-- C4: without `--use-plugin`, when the resolved thread count exceeds 1
the engine configuration selects MultiProc with that many processes,
adding a memory budget of `mem_mb / 1024` exactly when a nonzero memory
ceiling was given; otherwise it selects Linear with no plugin
arguments. -/
theorem plugin_selection (opts : Opts) (env : Env)
    (h : opts.use_plugin = none) :
    ((if opts.nthreads = 0 then env.cpuCount else opts.nthreads) > 1 →
        (create_workflow opts env).pluginSettings =
          { plugin := "MultiProc"
          , plugin_args := some
              { n_procs :=
                  some (if opts.nthreads = 0 then env.cpuCount
                        else opts.nthreads)
              , memory_gb :=
                  if opts.mem_mb ≠ 0 then
                    some ((opts.mem_mb : ℚ) / 1024)
                  else none } }) ∧
    (¬ (if opts.nthreads = 0 then env.cpuCount else opts.nthreads) > 1 →
        (create_workflow opts env).pluginSettings =
          { plugin := "Linear", plugin_args := none }) := by
  rw [create_workflow_pluginSettings_eq]
  unfold pluginStep
  rw [h]
  by_cases h0 : opts.nthreads = 0 <;>
    constructor <;> intro hgt <;>
      simp_all [initialSettings] <;>
      rw [if_neg (by omega)]

/-- Witness for C4 at concrete inputs: a resolved thread count of 8 with a
zero memory ceiling on one hand, an explicit single thread on the
other. -/
theorem plugin_selection_witness :
    (create_workflow optsZero (envW .success)).pluginSettings =
      { plugin := "MultiProc"
      , plugin_args := some { n_procs := some 8, memory_gb := none } } ∧
    (create_workflow optsW (envW .success)).pluginSettings =
      { plugin := "Linear", plugin_args := none } := by
  constructor
  · have := (plugin_selection optsZero (envW .success) rfl).1 (by decide)
    simpa using this
  · exact (plugin_selection optsW (envW .success) rfl).2 (by decide)

/-! ## C8: explicit participant labels -/

/-- C8: when a non-empty participant-label list is supplied, the subject
list is exactly that list, with no filesystem scan and no stripping. -/
theorem participant_labels_verbatim (opts : Opts) (env : Env)
    (l : List String) (hl : l ≠ []) (h : opts.participant_label = some l) :
    (create_workflow opts env).subjectList = l := by
  have e : (create_workflow opts env).subjectList =
      chooseSubjectList opts.participant_label env.bidsEntries := rfl
  rw [e, h]
  cases l with
  | nil => exact absurd rfl hl
  | cons a as => rfl

/-- Witness for C8 at concrete inputs: the label 01 is kept verbatim even
though the BIDS root also holds directories sub-01 and sub-02. -/
theorem participant_labels_verbatim_witness :
    (create_workflow optsW (envW .success)).subjectList = ["01"] :=
  participant_labels_verbatim optsW (envW .success) ["01"] (by decide) rfl

/-! ## C9: a plugin file alone fixes the engine configuration -/

/-- C9: two invocations naming the same plugin file (same path, same
parsed content) hand the engine the same configuration dictionary, namely
the parsed file content, whatever their thread and memory options; in
that case `nthreads` is also never replaced by the CPU count. -/
theorem plugin_file_sole_authority (o1 o2 : Opts) (env : Env) (p : String)
    (h1 : o1.use_plugin = some p) (h2 : o2.use_plugin = some p) :
    (create_workflow o1 env).pluginSettings =
        (create_workflow o2 env).pluginSettings ∧
    (create_workflow o1 env).pluginSettings = env.pluginFile p ∧
    (create_workflow o1 env).settings.nthreads = o1.nthreads := by
  refine ⟨?_, ?_, ?_⟩
  · rw [create_workflow_pluginSettings_eq, create_workflow_pluginSettings_eq]
    unfold pluginStep
    rw [h1, h2]
  · rw [create_workflow_pluginSettings_eq]
    unfold pluginStep
    rw [h1]
  · rw [create_workflow_settings_eq, antsStep_nthreads]
    unfold pluginStep
    rw [h1]
    rfl

/-- Witness for C9 at concrete inputs. -/
theorem plugin_file_sole_authority_witness :
    (create_workflow optsPluginA (envW .success)).pluginSettings =
        (create_workflow optsPluginB (envW .success)).pluginSettings ∧
    (create_workflow optsPluginA (envW .success)).pluginSettings =
        (envW .success).pluginFile "/cfg/plugin.yml" ∧
    (create_workflow optsPluginA (envW .success)).settings.nthreads =
        optsPluginA.nthreads :=
  plugin_file_sole_authority optsPluginA optsPluginB (envW .success)
    "/cfg/plugin.yml" rfl rfl

/-! ## C6: directory creation -/

theorem make_folder_self_mem (fs : List String) (p : String) :
    p ∈ make_folder fs p := by
  unfold make_folder
  split
  · assumption
  · simp

theorem make_folder_mono (p : String) {fs : List String} {q : String}
    (h : q ∈ fs) : q ∈ make_folder fs p := by
  unfold make_folder
  split
  · exact h
  · exact List.mem_append_left _ h

theorem make_folder_of_mem {fs : List String} {p : String} (h : p ∈ fs) :
    make_folder fs p = fs := by
  simp [make_folder, h]

theorem make_folder_nodup (p : String) {fs : List String} (h : fs.Nodup) :
    (make_folder fs p).Nodup := by
  unfold make_folder
  split
  · exact h
  · next hp => simp [List.nodup_append, h, hp]

theorem createDirs_mem (s : Settings) (fs : List String) :
    s.output_dir ∈ createDirs s fs ∧
    s.work_dir ∈ createDirs s fs ∧
    pjoin s.output_dir "derivatives" ∈ createDirs s fs ∧
    pjoin s.output_dir "log" ∈ createDirs s fs := by
  unfold createDirs
  refine ⟨?_, ?_, ?_, ?_⟩
  · exact make_folder_mono _ (make_folder_mono _
      (make_folder_mono _ (make_folder_self_mem _ _)))
  · exact make_folder_mono _ (make_folder_mono _ (make_folder_self_mem _ _))
  · exact make_folder_mono _ (make_folder_self_mem _ _)
  · exact make_folder_self_mem _ _

theorem createDirs_idem (s : Settings) (fs : List String) :
    createDirs s (createDirs s fs) = createDirs s fs := by
  obtain ⟨h1, h2, h3, h4⟩ := createDirs_mem s fs
  show make_folder
      (make_folder
        (make_folder (make_folder (createDirs s fs) s.output_dir) s.work_dir)
        (pjoin s.output_dir "derivatives"))
      (pjoin s.output_dir "log") = createDirs s fs
  rw [make_folder_of_mem h1, make_folder_of_mem h2, make_folder_of_mem h3,
    make_folder_of_mem h4]

theorem createDirs_nodup (s : Settings) {fs : List String} (h : fs.Nodup) :
    (createDirs s fs).Nodup :=
  make_folder_nodup _ (make_folder_nodup _ (make_folder_nodup _
    (make_folder_nodup _ h)))

/-- C6: every invocation creates the output directory, its `log` and
`derivatives` children and the working directory before use, and the
creation is idempotent: running the same creation again changes nothing,
and directories are never duplicated (a duplicate-free filesystem stays
duplicate-free). -/
theorem directories_created_idempotently (opts : Opts) (env : Env) :
    ((initialSettings opts env.cwd).output_dir ∈ (create_workflow opts env).fs ∧
     pjoin (initialSettings opts env.cwd).output_dir "log" ∈
       (create_workflow opts env).fs ∧
     pjoin (initialSettings opts env.cwd).output_dir "derivatives" ∈
       (create_workflow opts env).fs ∧
     (initialSettings opts env.cwd).work_dir ∈ (create_workflow opts env).fs) ∧
    createDirs (initialSettings opts env.cwd) (create_workflow opts env).fs =
      (create_workflow opts env).fs ∧
    (env.fs0.Nodup → (create_workflow opts env).fs.Nodup) := by
  have e : (create_workflow opts env).fs =
      createDirs (initialSettings opts env.cwd) env.fs0 := rfl
  obtain ⟨h1, h2, h3, h4⟩ := createDirs_mem (initialSettings opts env.cwd) env.fs0
  rw [e]
  exact ⟨⟨h1, h4, h3, h2⟩, createDirs_idem _ _, fun hn => createDirs_nodup _ hn⟩

/-- Witness for C6 at concrete inputs (the implication is discharged with
the empty, duplicate-free initial filesystem). -/
theorem directories_created_idempotently_witness :
    pjoin (initialSettings optsW (envW .success).cwd).output_dir "log" ∈
        (create_workflow optsW (envW .success)).fs ∧
    createDirs (initialSettings optsW (envW .success).cwd)
        (create_workflow optsW (envW .success)).fs =
      (create_workflow optsW (envW .success)).fs ∧
    (create_workflow optsW (envW .success)).fs.Nodup :=
  ⟨(directories_created_idempotently optsW (envW .success)).1.2.1,
   (directories_created_idempotently optsW (envW .success)).2.1,
   (directories_created_idempotently optsW (envW .success)).2.2 List.nodup_nil⟩

/-! ## C5: one graph per subject -/

theorem enumLoop_length (s : Settings) (ts : Nat → String) (l : List String)
    (i : Nat) : (enumLoop s ts l i).length = l.length := by
  induction l generalizing i with
  | nil => rfl
  | cons a as ih => simp [enumLoop, ih]

theorem subjectWf_iface_map (s : Settings) (ts : Nat → String)
    (subj : String) (i : Nat) :
    (subjectWf s ts subj i).nodes.map Node.iface =
      (sbref_correct (collect_bids_data s.bids_root subj)).nodes.map
        Node.iface := by
  simp [subjectWf, List.map_map]

/-- C5: `fmap_enumerator` builds exactly one per-subject processing graph
per entry of the subject list, in order; each is the `sbref_correct` graph
for that subject, added as a member of the single enclosing workflow named
`workflow_enumerator`, which is what the function returns. -/
theorem enumerator_one_graph_per_subject (sl : List String) (s : Settings)
    (ts : Nat → String) :
    (fmap_enumerator sl s ts).name = "workflow_enumerator" ∧
    (fmap_enumerator sl s ts).subWfs.length = sl.length ∧
    List.Forall₂ (fun subj wf =>
        wf.name = "sbref_correct" ∧
        wf.nodes.map Node.iface =
          (sbref_correct (collect_bids_data s.bids_root subj)).nodes.map
            Node.iface ∧
        wf.edges = (sbref_correct (collect_bids_data s.bids_root subj)).edges)
      sl (fmap_enumerator sl s ts).subWfs := by
  refine ⟨rfl, enumLoop_length s ts sl 0, ?_⟩
  show List.Forall₂ _ sl (enumLoop s ts sl 0)
  generalize 0 = i
  induction sl generalizing i with
  | nil => exact List.Forall₂.nil
  | cons a as ih =>
    exact List.Forall₂.cons ⟨rfl, subjectWf_iface_map s ts a i, rfl⟩ (ih _)

/-! ## C7: the fixed workflow of util.py -/

/-- C7 counterexample: the workflow-construction function of `util.py`
declares six image-processing nodes, not five. -/
theorem five_image_processing_nodes_counterexample :
    ¬ ((init_enhance_and_skullstrip_epi_wf
          "enhance_and_skullstrip_epi_wf").nodes.filter
        (fun n => n.iface.isImageProcessing)).length = 5 := by
  decide

/-- C7 amended: the workflow-construction function declares a fixed set of
nine nodes, of which exactly six are image-processing nodes, together with
fourteen data-flow edges, and the node and edge sets do not depend on its
input (the workflow name). -/
theorem fixed_node_and_edge_sets (n1 n2 : String) :
    (init_enhance_and_skullstrip_epi_wf n1).nodes =
      (init_enhance_and_skullstrip_epi_wf n2).nodes ∧
    (init_enhance_and_skullstrip_epi_wf n1).edges =
      (init_enhance_and_skullstrip_epi_wf n2).edges ∧
    ((init_enhance_and_skullstrip_epi_wf n1).nodes.filter
        (fun n => n.iface.isImageProcessing)).length = 6 ∧
    (init_enhance_and_skullstrip_epi_wf n1).nodes.length = 9 ∧
    (init_enhance_and_skullstrip_epi_wf n1).edges.length = 14 :=
  ⟨rfl, rfl, rfl, rfl, rfl⟩

/-! ## C10: per-subject crash-dump isolation -/

theorem append_slash_inj {u1 v1 u2 v2 : List Char}
    (h1 : ('/' : Char) ∉ u1) (h2 : ('/' : Char) ∉ u2)
    (h : u1 ++ '/' :: v1 = u2 ++ '/' :: v2) : u1 = u2 ∧ v1 = v2 := by
  induction u1 generalizing u2 with
  | nil =>
    cases u2 with
    | nil => simpa using h
    | cons b bs =>
      simp only [List.nil_append, List.cons_append] at h
      obtain ⟨hb, -⟩ := List.cons.inj h
      exact absurd (by rw [← hb]; exact List.mem_cons_self _ _) h2
  | cons a as ih =>
    cases u2 with
    | nil =>
      simp only [List.cons_append, List.nil_append] at h
      obtain ⟨ha, -⟩ := List.cons.inj h
      exact absurd (by rw [ha]; exact List.mem_cons_self _ _) h1
    | cons b bs =>
      simp only [List.cons_append] at h
      obtain ⟨hab, hrest⟩ := List.cons.inj h
      have h1' : ('/' : Char) ∉ as := fun hm => h1 (List.mem_cons_of_mem _ hm)
      have h2' : ('/' : Char) ∉ bs := fun hm => h2 (List.mem_cons_of_mem _ hm)
      obtain ⟨he, hv⟩ := ih h1' h2' hrest
      exact ⟨by rw [hab, he], hv⟩

theorem crashDir_data (out a t : String) :
    (crashDir out a t).data =
      out.data ++ '/' :: 'l' :: 'o' :: 'g' :: '/' ::
        (a.data ++ '/' :: t.data) := by
  have h1 : ("/" : String).data = ['/'] := rfl
  have h2 : ("log" : String).data = ['l', 'o', 'g'] := rfl
  simp [crashDir, pjoin, String.data_append, h1, h2, List.append_assoc]

theorem crashDir_inj {out a1 t1 a2 t2 : String}
    (ha1 : ('/' : Char) ∉ a1.data) (ha2 : ('/' : Char) ∉ a2.data)
    (h : crashDir out a1 t1 = crashDir out a2 t2) : a1 = a2 ∧ t1 = t2 := by
  have hd : (crashDir out a1 t1).data = (crashDir out a2 t2).data := by rw [h]
  rw [crashDir_data, crashDir_data] at hd
  have hd2 := List.append_cancel_left hd
  simp only [List.cons.injEq, true_and] at hd2
  obtain ⟨he1, he2⟩ := append_slash_inj ha1 ha2 hd2
  exact ⟨String.ext he1, String.ext he2⟩

theorem subjectWf_config (s : Settings) (ts : Nat → String) (a : String)
    (i : Nat) :
    (subjectWf s ts a i).config =
      ⟨some (crashDir s.output_dir a (ts i))⟩ := rfl

theorem subjectWf_node_config (s : Settings) (ts : Nat → String)
    (a : String) (i : Nat) :
    ∀ n ∈ (subjectWf s ts a i).nodes, n.config = (subjectWf s ts a i).config := by
  intro n hn
  simp only [subjectWf, List.mem_map] at hn
  obtain ⟨m, hm, rfl⟩ := hn
  rfl

theorem enumLoop_node_configs (s : Settings) (ts : Nat → String)
    (l : List String) (i : Nat) :
    ∀ wf ∈ enumLoop s ts l i, ∀ n ∈ wf.nodes, n.config = wf.config := by
  induction l generalizing i with
  | nil => intro wf hwf; simp [enumLoop] at hwf
  | cons a as ih =>
    intro wf hwf
    rw [show enumLoop s ts (a :: as) i =
        subjectWf s ts a i :: enumLoop s ts as (i + 1) from rfl,
      List.mem_cons] at hwf
    rcases hwf with rfl | hwf
    · exact subjectWf_node_config s ts a i
    · exact ih (i + 1) wf hwf

theorem enumLoop_crash_dirs (s : Settings) (ts : Nat → String)
    (l : List String) (i : Nat) :
    (enumLoop s ts l i).map (fun w => w.config.crashdump_dir) =
      (l.enumFrom i).map
        (fun p => some (crashDir s.output_dir p.2 (ts p.1))) := by
  induction l generalizing i with
  | nil => rfl
  | cons a as ih =>
    rw [show enumLoop s ts (a :: as) i =
        subjectWf s ts a i :: enumLoop s ts as (i + 1) from rfl,
      show (a :: as).enumFrom i = (i, a) :: as.enumFrom (i + 1) from rfl,
      List.map_cons, List.map_cons, ih]
    rfl

theorem snd_mem_of_mem_enumFrom {α : Type} {p : Nat × α} :
    ∀ {l : List α} {i : Nat}, p ∈ l.enumFrom i → p.2 ∈ l := by
  intro l
  induction l with
  | nil => intro i h; simp [List.enumFrom] at h
  | cons a as ih =>
    intro i h
    rw [show (a :: as).enumFrom i = (i, a) :: as.enumFrom (i + 1) from rfl,
      List.mem_cons] at h
    rcases h with rfl | h
    · exact List.mem_cons_self _ _
    · exact List.mem_cons_of_mem _ (ih h)

theorem enumLoop_crash_nodup (s : Settings) (ts : Nat → String)
    (l : List String) (hnd : l.Nodup)
    (hl : ∀ x ∈ l, ('/' : Char) ∉ x.data) (i : Nat) :
    ((enumLoop s ts l i).map (fun w => w.config.crashdump_dir)).Nodup := by
  induction l generalizing i with
  | nil => simp [enumLoop]
  | cons a as ih =>
    rw [show enumLoop s ts (a :: as) i =
        subjectWf s ts a i :: enumLoop s ts as (i + 1) from rfl,
      List.map_cons, List.nodup_cons]
    obtain ⟨hna, hnd'⟩ := List.nodup_cons.mp hnd
    refine ⟨?_, ih hnd' (fun x hx => hl x (List.mem_cons_of_mem _ hx)) (i + 1)⟩
    intro hmem
    rw [enumLoop_crash_dirs, List.mem_map] at hmem
    obtain ⟨p, hp, heq⟩ := hmem
    have hx : p.2 ∈ as := snd_mem_of_mem_enumFrom hp
    have heq' : crashDir s.output_dir p.2 (ts p.1) =
        crashDir s.output_dir a (ts i) := Option.some.inj heq
    have hax := crashDir_inj (hl p.2 (List.mem_cons_of_mem _ hx))
      (hl a (List.mem_cons_self _ _)) heq'
    exact hna (hax.1 ▸ hx)

/-- C10: each node of a per-subject sub-workflow carries (a copy of) the
configuration of that sub-workflow; the crash-dump directories, in order,
are `output_dir/log/<subject>/<timestamp>` for the subjects of the list;
and for a duplicate-free list of slash-free subject identifiers they are
pairwise distinct.  (The Python deep copy is modelled by value semantics:
each node holds its own record equal to the sub-workflow configuration,
shared with no other object.) -/
theorem per_subject_crashdump_isolation (sl : List String) (s : Settings)
    (ts : Nat → String) (hnd : sl.Nodup)
    (hs : ∀ x ∈ sl, ('/' : Char) ∉ x.data) :
    (∀ wf ∈ (fmap_enumerator sl s ts).subWfs, ∀ n ∈ wf.nodes,
        n.config = wf.config) ∧
    (fmap_enumerator sl s ts).subWfs.map (fun w => w.config.crashdump_dir) =
      sl.enum.map (fun p => some (crashDir s.output_dir p.2 (ts p.1))) ∧
    ((fmap_enumerator sl s ts).subWfs.map
        (fun w => w.config.crashdump_dir)).Nodup :=
  ⟨enumLoop_node_configs s ts sl 0, enumLoop_crash_dirs s ts sl 0,
   enumLoop_crash_nodup s ts sl hnd hs 0⟩

/-- Witness for C10 at concrete inputs: two subjects sharing one
timestamp still get distinct crash-dump directories. -/
theorem per_subject_crashdump_isolation_witness :
    ((fmap_enumerator ["01", "02"] settingsW tsW).subWfs.map
        (fun w => w.config.crashdump_dir)).Nodup :=
  (per_subject_crashdump_isolation ["01", "02"] settingsW tsW
    (by decide) (by decide)).2.2

end FmriPrep
